import Mathlib

/-! Verification development for `src/sdf/data_file.cc`.

A shallow embedding of the file lifecycle code of the tensor library's
structured data files: the lock helpers `get_lock` / `giveup_lock`, the
filesystem helpers `file_exists` / `delete_file` / `rename_file`, and the
`DataFile` constructor, destructor, `close` and `tag_to_name`.

The operating system is an explicit state `Sys` that is threaded through every
function.  A function that may call `abort()` or spin in the lock loop returns
an `Outcome`.
-/

namespace sdf

/-! ## The operating system model -/

/-- A regular file: its bytes, and whether `access(path, R_OK | W_OK)` is
granted to the calling process. -/
structure Node where
  content : String
  rw : Bool
  deriving DecidableEq, Repr

/-- The file namespace together with the conditions under which the `unlink`
and `rename` system calls are refused (permissions of the directory, a
different volume, and so on). -/
structure FS where
  node : String → Option Node
  unlink_denied : String → Bool
  rename_denied : String → String → Bool

/-- The namespace in which `path` names `entry` (no file when `none`) and every
other path is as before. -/
def FS.set (fs : FS) (path : String) (entry : Option Node) : FS :=
  { fs with node := fun q => if q = path then entry else fs.node q }

/-- System calls and library calls made by the code, with their results. -/
inductive Call where
  | umask (mask : Nat)
  | openCreat (path : String) (fd : Int)
  | flock (fd : Int) (ret : Int)
  | closeFd (fd : Int)
  | sleep (seconds : Nat)
  | unlink (path : String) (ret : Int)
  | rename (orig dest : String) (ret : Int)
  deriving DecidableEq, Repr

/-- State of the process and of the machine it runs on. `calls` lists the
calls made so far and `states` the file namespace after each `unlink` and
`rename`, both oldest first; `cout` and `cerr` are the lines written to the
two streams. -/
structure Sys where
  fs : FS
  umask : Nat
  calls : List Call
  states : List (String → Option Node)
  cout : List String
  cerr : List String

/-- How a call into the component ends: it returns a value, the process is
terminated by `abort()`, or it is still inside the retry loop of `get_lock`
when the supplied outcomes of `open`/`flock` are used up. -/
inductive Outcome (α : Type) where
  | returned (value : α) (s : Sys)
  | aborted (s : Sys)
  | blocked (s : Sys)

/-- The machine state in which a call ended. -/
def Outcome.sys {α : Type} : Outcome α → Sys
  | .returned _ s => s
  | .aborted s => s
  | .blocked s => s

/-- The returned value, when the call returned. -/
def Outcome.value? {α : Type} : Outcome α → Option α
  | .returned a _ => some a
  | .aborted _ => none
  | .blocked _ => none

/-- Whether the process was terminated by `abort()`. -/
def Outcome.isAborted {α : Type} : Outcome α → Bool
  | .aborted _ => true
  | _ => false

/-- The call `access(path, R_OK | W_OK)`: 0 when the file is there and may be read and
written, -1 otherwise. -/
def sys_access (path : String) (s : Sys) : Int :=
  match s.fs.node path with
  | some n => if n.rw then 0 else -1
  | none => -1

/-- The call `unlink(path)`: removes the name and gives 0, or changes nothing and gives
-1 when there is no such file or the removal is refused. -/
def sys_unlink (path : String) (s : Sys) : Int × Sys :=
  if (s.fs.node path).isSome && !s.fs.unlink_denied path then
    let fs1 : FS := s.fs.set path none
    (0, { s with fs := fs1, calls := s.calls ++ [Call.unlink path 0],
                 states := s.states ++ [fs1.node] })
  else
    (-1, { s with calls := s.calls ++ [Call.unlink path (-1)],
                  states := s.states ++ [s.fs.node] })

/-- The call `rename(orig, dest)`: in one step `dest` comes to name the file `orig`
named (replacing what was there) and `orig` is removed; gives 0. When `orig`
does not exist or the operation is refused nothing changes and it gives -1. -/
def sys_rename (orig dest : String) (s : Sys) : Int × Sys :=
  if (s.fs.node orig).isSome && !s.fs.rename_denied orig dest then
    let fs1 : FS := (s.fs.set orig none).set dest (s.fs.node orig)
    (0, { s with fs := fs1, calls := s.calls ++ [Call.rename orig dest 0],
                 states := s.states ++ [fs1.node] })
  else
    (-1, { s with calls := s.calls ++ [Call.rename orig dest (-1)],
                  states := s.states ++ [s.fs.node] })

/-- The call `umask(mask)`: installs the new file creation mask and gives the old one. -/
def sys_umask (mask : Nat) (s : Sys) : Nat × Sys :=
  (s.umask, { s with umask := mask, calls := s.calls ++ [Call.umask mask] })

/-- The call `open(path, O_RDWR|O_CREAT, 0666)` with the result `fd` decided by the
environment. A successful call creates the file when it is absent; the new
file is empty and its permission bits are `0666 & ~umask`. -/
def sys_open_creat (path : String) (fd : Int) (s : Sys) : Int × Sys :=
  let s1 : Sys := { s with calls := s.calls ++ [Call.openCreat path fd] }
  if 0 ≤ fd ∧ s.fs.node path = none then
    let perm : Nat := 0o666 - (0o666 &&& s.umask)
    let created : Node := Node.mk "" (perm &&& 0o600 == 0o600)
    let fs1 : FS := s.fs.set path (some created)
    (fd, { s1 with fs := fs1 })
  else (fd, s1)

/-- The call `flock(fd, LOCK_EX | LOCK_NB)` with the result decided by the environment. -/
def sys_flock (fd : Int) (ret : Int) (s : Sys) : Int × Sys :=
  (ret, { s with calls := s.calls ++ [Call.flock fd ret] })

/-- The call `close(fd)`. -/
def sys_close (fd : Int) (s : Sys) : Sys :=
  { s with calls := s.calls ++ [Call.closeFd fd] }

/-- The call `sleep(seconds)`. -/
def sys_sleep (seconds : Nat) (s : Sys) : Sys :=
  { s with calls := s.calls ++ [Call.sleep seconds] }

/-- A line written to `std::cout`. -/
def Sys.print (s : Sys) (line : String) : Sys := { s with cout := s.cout ++ [line] }

/-- A line written to `std::cerr`. -/
def Sys.report (s : Sys) (line : String) : Sys := { s with cerr := s.cerr ++ [line] }

/-- The value of `ENOTSUP` in `<errno.h>` (Linux). -/
def ENOTSUP : Int := 95

/-! ## Lock helpers -/

/-- What the environment answers in one round of the loop of `get_lock`: the
result of `open`, and the result of `flock` with the `errno` it leaves (both
looked at only when the descriptor is valid). -/
structure Attempt where
  open_fd : Int
  flock_ret : Int
  errno : Int
  deriving DecidableEq, Repr

/-- The function `static int get_lock(char const *lockName, bool wait)`: one round of the
`do … while (1)` loop per element of the list of outcomes. -/
def get_lock (lockName : String) (wait : Bool) : List Attempt → Sys → Outcome Int
  | [], s => .blocked s
  | a :: rest, s =>
    let m := sys_umask 0 s
    let o := sys_open_creat lockName a.open_fd m.2
    let s1 := (sys_umask m.1 o.2).2
    let fd := o.1
    if 0 ≤ fd then
      let f := sys_flock fd a.flock_ret s1
      if f.1 < 0 then
        if a.errno = ENOTSUP then
          .returned fd
            (f.2.print "Locking not supported. We assume you know what you are doing.\n")
        else
          let s2 := sys_close fd f.2
          let fd : Int := -1
          if 0 < fd || !wait then .returned fd s2
          else get_lock lockName wait rest (sys_sleep 1 s2)
      else
        if 0 < fd || !wait then .returned fd f.2
        else get_lock lockName wait rest (sys_sleep 1 f.2)
    else
      if 0 < fd || !wait then .returned fd s1
      else get_lock lockName wait rest (sys_sleep 1 s1)

/-- The function `static void giveup_lock(int fd, char const *lockName)`. -/
def giveup_lock (fd : Int) (lockName : String) (s : Sys) : Sys :=
  if fd < 0 then s
  else sys_close fd (sys_unlink lockName s).2

/-! ## Filesystem helpers -/

/-- The function `bool file_exists(const std::string &filename)`. -/
def file_exists (filename : String) (s : Sys) : Bool :=
  sys_access filename s == 0

/-- The function `bool delete_file(const std::string &filename)`. -/
def delete_file (filename : String) (s : Sys) : Bool × Sys :=
  let u := sys_unlink filename s
  (u.1 == 0, u.2)

/-- The function `bool rename_file(const std::string &orig, const std::string &dest)`. The
second diagnostic prints `dest`, as the source does. -/
def rename_file (orig dest : String) (s : Sys) : Outcome Bool :=
  let move (s : Sys) : Outcome Bool :=
    if !file_exists orig s then
      .aborted (s.report ("In rename_file(), original file " ++ dest ++ " does not exist"))
    else
      let r := sys_rename orig dest s
      .returned (r.1 == 0) r.2
  if file_exists dest s then
    let d := delete_file dest s
    if !d.1 then
      .aborted (d.2.report ("Unable to move file to destination " ++ dest ++
        " because destination cannot be deleted."))
    else move d.2
  else move s

/-! ## The session object -/

/-- Sequencing of calls: the rest runs only when the first call returned. -/
def Outcome.andThen {α β : Type} (o : Outcome α) (k : α → Sys → Outcome β) : Outcome β :=
  match o with
  | .returned a s => k a s
  | .aborted s => .aborted s
  | .blocked s => .blocked s

/-- Modelled from the spec: the integer mode constants `SDF_OVERWRITE`,
`SDF_SHARED` and `SDF_PARANOID` are declared in the header `tensor/sdf.h`,
whose text is not available. The spec (§3, §4.2) gives the mode as one of
`Overwrite | Shared | Paranoid`, with any other value of the `int` unrecognized;
this type is the `int flags` split into those four cases of the `switch`. -/
inductive Flags where
  | SDF_OVERWRITE
  | SDF_SHARED
  | SDF_PARANOID
  | unrecognized (code : Int)
  deriving DecidableEq, Repr

/-- Data members of `class DataFile` that this translation unit initialises and
uses. `_filename` and `_lock_filename` are strings of their own, copied from
`_actual_filename` while it still holds the constructor's argument. -/
structure DataFile where
  _flags : Flags
  _actual_filename : String
  _filename : String
  _lock_filename : String
  _lock : Int
  _open : Bool
  deriving DecidableEq, Repr

/-- Modelled from the spec: `is_open()` is declared in the header
`tensor/sdf.h`, whose text is not available; §3 gives `is_open` as the boolean lifecycle flag that
`close()` tests and clears, which is the member `_open`. -/
def DataFile.is_open (d : DataFile) : Bool := d._open

/-- Modelled from the spec: `delete_previous` is called by the constructor and
is not defined in `data_file.cc`. §4.2: "if a file already exists at
`physical_path`, delete it eagerly"; "Fatal condition: deletion of an existing
file fails — this is treated as an unrecoverable setup error
(process-terminating)". Existence is tested with `file_exists` and the deletion
done with `delete_file`, the helpers of this file that `rename_file` uses for
the same step. -/
def delete_previous (filename : String) (s : Sys) : Outcome Unit :=
  if file_exists filename s then
    let d := delete_file filename s
    if !d.1 then .aborted d.2 else .returned () d.2
  else .returned () s

/-- The constructor `DataFile::DataFile(const std::string &a_filename, int flags)`:
the member initialisers in the order written, then the body. `lock_outcomes`
are the answers of the environment to the rounds of `get_lock`. -/
def DataFile.ctor (a_filename : String) (flags : Flags) (lock_outcomes : List Attempt)
    (s : Sys) : Outcome DataFile :=
  let _actual_filename := a_filename
  let _filename := _actual_filename
  let _lock_filename := _actual_filename ++ ".lck"
  let lock : Outcome Int :=
    if flags = Flags.SDF_SHARED then get_lock _lock_filename true lock_outcomes s
    else .returned 0 s
  lock.andThen fun _lock s1 =>
    let d : DataFile :=
      { _flags := flags, _actual_filename := _actual_filename, _filename := _filename,
        _lock_filename := _lock_filename, _lock := _lock, _open := true }
    match flags with
    | .SDF_OVERWRITE =>
      (delete_previous d._actual_filename s1).andThen fun _ s2 => .returned d s2
    | .SDF_SHARED => .returned d s1
    | .SDF_PARANOID =>
      let d1 : DataFile := { d with _actual_filename := d._actual_filename ++ ".tmp" }
      (delete_previous d1._actual_filename s1).andThen fun _ s2 => .returned d1 s2
    | .unrecognized code =>
      .aborted (s1.report ("Unrecognized DataFile mode " ++ toString code))

/-- The member function `void DataFile::close()`. Its `switch (flags)` is read as
the switch on the mode stored by the constructor (the member `_flags`), which
is how §4.2 of the spec describes it. `is_locked` is the member function
`is_locked()` of the header `tensor/sdf.h`, whose text is not available; it is
a parameter here and may be any predicate on the session. The value returned
by `rename_file` is dropped, as in the source. -/
def DataFile.close (is_locked : DataFile → Bool) (d : DataFile) (s : Sys) : Outcome DataFile :=
  if d.is_open then
    let d1 : DataFile := { d with _open := false }
    match d1._flags with
    | .SDF_SHARED =>
      if is_locked d1 then .returned d1 (giveup_lock d1._lock d1._lock_filename s)
      else .returned d1 s
    | .SDF_PARANOID =>
      if file_exists d1._actual_filename s then
        (rename_file d1._actual_filename d1._filename s).andThen fun _ s1 => .returned d1 s1
      else .returned d1 s
    | _ => .returned d1 s
  else .returned d s

/-- The destructor `DataFile::~DataFile()`. -/
def DataFile.dtor (is_locked : DataFile → Bool) (d : DataFile) (s : Sys) :
    Outcome DataFile :=
  d.close is_locked s

/-- The member function `const char *DataFile::tag_to_name(size_t tag)`. `tag` is
unsigned, so the comparison `tag < 0` is the one on natural numbers. The
result is `none` when `names[tag]` reads past the end of the four-entry
table. -/
def DataFile.tag_to_name (d : DataFile) (tag : Nat) (s : Sys) : Option String × Sys :=
  let names : List String := ["RTensor", "CTensor", "Real MPS", "Complex MPS"]
  let s1 : Sys :=
    if tag > 4 ∨ tag < 0 then
      s.report ("Not a valid tag code, " ++ toString tag ++ " found in " ++ d._filename)
    else s
  (names.get? tag, s1)

/-! ## Concrete machines used in the examples -/

/-- A machine with no files on which every `unlink` and `rename` is allowed. -/
def Sys.empty : Sys :=
  { fs := { node := fun _ => none, unlink_denied := fun _ => false,
            rename_denied := fun _ _ => false },
    umask := 0o022, calls := [], states := [], cout := [], cerr := [] }

/-- The machine `s` with a readable and writable file `path` holding `content`. -/
def Sys.withFile (s : Sys) (path content : String) : Sys :=
  { s with fs := s.fs.set path (some (Node.mk content true)) }

/-- The machine `s` with every `rename` refused. -/
def Sys.denyRename (s : Sys) : Sys :=
  { s with fs := { s.fs with rename_denied := fun _ _ => true } }

/-- The machine `s` with every `unlink` refused. -/
def Sys.denyUnlink (s : Sys) : Sys :=
  { s with fs := { s.fs with unlink_denied := fun _ => true } }

/-- The reading of `is_locked()` used in the examples: a lock is held when
`_lock` is not the 0 the constructor stores outside shared mode. -/
def lock_nonzero (d : DataFile) : Bool := d._lock != 0

/-- The machine after a successful `unlink(path)`. -/
def Sys.afterUnlink (s : Sys) (path : String) : Sys :=
  { s with fs := s.fs.set path none, calls := s.calls ++ [Call.unlink path 0],
           states := s.states ++ [(s.fs.set path none).node] }

/-- The machine after a refused `unlink(path)`. -/
def Sys.afterRefusedUnlink (s : Sys) (path : String) : Sys :=
  { s with calls := s.calls ++ [Call.unlink path (-1)], states := s.states ++ [s.fs.node] }

/-- The session a paranoid constructor on `p` builds. -/
def paranoid_session (p : String) : DataFile :=
  { _flags := Flags.SDF_PARANOID, _actual_filename := p ++ ".tmp", _filename := p,
    _lock_filename := p ++ ".lck", _lock := 0, _open := true }

/-! ## Basic facts about the model -/

theorem tmp_ne (p : String) : p ++ ".tmp" ≠ p := by
  intro h
  have h1 := congrArg String.length h
  simp only [String.length_append] at h1
  have h2 : ".tmp".length = 4 := by decide
  omega

theorem ne_tmp (p : String) : p ≠ p ++ ".tmp" := fun h => tmp_ne p h.symm

@[simp]
theorem FS.set_node_same (fs : FS) (path : String) (e : Option Node) :
    (fs.set path e).node path = e := by
  simp [FS.set]

theorem FS.set_node_other (fs : FS) (path q : String) (e : Option Node) (h : q ≠ path) :
    (fs.set path e).node q = fs.node q := by
  simp [FS.set, h]

@[simp]
theorem FS.set_unlink_denied (fs : FS) (path : String) (e : Option Node) :
    (fs.set path e).unlink_denied = fs.unlink_denied := rfl

@[simp]
theorem FS.set_rename_denied (fs : FS) (path : String) (e : Option Node) :
    (fs.set path e).rename_denied = fs.rename_denied := rfl

theorem file_exists_iff (path : String) (s : Sys) :
    file_exists path s = true ↔ ∃ c, s.fs.node path = some ⟨c, true⟩ := by
  unfold file_exists sys_access
  cases h : s.fs.node path with
  | none => simp
  | some n =>
    obtain ⟨c, rw⟩ := n
    cases rw <;> simp

theorem file_exists_congr (path : String) (s t : Sys) (h : s.fs.node path = t.fs.node path) :
    file_exists path s = file_exists path t := by
  simp [file_exists, sys_access, h]

theorem delete_file_ok (path : String) (s : Sys) (hx : file_exists path s = true)
    (hd : s.fs.unlink_denied path = false) :
    delete_file path s =
      (true, { s with fs := s.fs.set path none, calls := s.calls ++ [Call.unlink path 0],
                      states := s.states ++ [(s.fs.set path none).node] }) := by
  obtain ⟨c, hc⟩ := (file_exists_iff path s).1 hx
  simp [delete_file, sys_unlink, hc, hd]

theorem delete_file_refused (path : String) (s : Sys) (hd : s.fs.unlink_denied path = true) :
    delete_file path s =
      (false, { s with calls := s.calls ++ [Call.unlink path (-1)],
                       states := s.states ++ [s.fs.node] }) := by
  simp [delete_file, sys_unlink, hd]

/-! ## `rename_file` -/

/-- C10: when the source is missing (for `file_exists`) and the destination
exists and can be deleted, `rename_file` unlinks the destination and then
aborts on the missing source: at the abort no file is at the destination,
where one was at entry, the only call made is the successful `unlink`, and
every other path is as it was. The two paths are necessarily distinct. -/
theorem rename_file_missing_source_deletes_destination (orig dest : String) (s : Sys)
    (h_src : file_exists orig s = false) (h_dst : file_exists dest s = true)
    (h_del : s.fs.unlink_denied dest = false) :
    orig ≠ dest ∧
    ∃ s1, rename_file orig dest s = Outcome.aborted s1 ∧
      s.fs.node dest ≠ none ∧ s1.fs.node dest = none ∧
      s1.calls = s.calls ++ [Call.unlink dest 0] ∧
      (∀ q, q ≠ dest → s1.fs.node q = s.fs.node q) := by
  have hne : orig ≠ dest := by
    intro h
    rw [h, h_dst] at h_src
    exact Bool.noConfusion h_src
  refine ⟨hne, ?_⟩
  obtain ⟨c, hc⟩ := (file_exists_iff dest s).1 h_dst
  have h_src1 : file_exists orig
      { s with fs := s.fs.set dest none, calls := s.calls ++ [Call.unlink dest 0],
               states := s.states ++ [(s.fs.set dest none).node] } = false := by
    rw [← h_src]
    exact file_exists_congr _ _ _ (FS.set_node_other _ _ _ _ hne)
  have hr : rename_file orig dest s = Outcome.aborted
      (Sys.report { s with fs := s.fs.set dest none, calls := s.calls ++ [Call.unlink dest 0],
                           states := s.states ++ [(s.fs.set dest none).node] }
        ("In rename_file(), original file " ++ dest ++ " does not exist")) := by
    simp [rename_file, h_dst, delete_file_ok dest s h_dst h_del, h_src1]
  refine ⟨_, hr, ?_, ?_, ?_, ?_⟩
  · simp [hc]
  · simp [Sys.report]
  · simp [Sys.report]
  · intro q hq
    simp [Sys.report, FS.set_node_other _ _ _ _ hq]

theorem rename_file_missing_source_deletes_destination_witness :
    "data.tmp" ≠ "data" ∧
    ∃ s1, rename_file "data.tmp" "data" (Sys.empty.withFile "data" "old") = Outcome.aborted s1 ∧
      (Sys.empty.withFile "data" "old").fs.node "data" ≠ none ∧ s1.fs.node "data" = none ∧
      s1.calls = (Sys.empty.withFile "data" "old").calls ++ [Call.unlink "data" 0] ∧
      (∀ q, q ≠ "data" → s1.fs.node q = (Sys.empty.withFile "data" "old").fs.node q) :=
  rename_file_missing_source_deletes_destination "data.tmp" "data"
    (Sys.empty.withFile "data" "old") (by decide) (by decide) (by decide)

theorem delete_file_eq (path : String) (s : Sys) (hx : file_exists path s = true)
    (hd : s.fs.unlink_denied path = false) :
    delete_file path s = (true, s.afterUnlink path) :=
  delete_file_ok path s hx hd

theorem file_exists_afterUnlink (path q : String) (s : Sys) (h : q ≠ path) :
    file_exists q (s.afterUnlink path) = file_exists q s :=
  file_exists_congr _ _ _ (FS.set_node_other _ _ _ _ h)

theorem rename_file_no_dest (orig dest : String) (s : Sys)
    (h_src : file_exists orig s = true) (h_dst : file_exists dest s = false) :
    rename_file orig dest s =
      Outcome.returned ((sys_rename orig dest s).1 == 0) (sys_rename orig dest s).2 := by
  simp [rename_file, h_dst, h_src]

theorem rename_file_dest (orig dest : String) (s : Sys) (hne : orig ≠ dest)
    (h_src : file_exists orig s = true) (h_dst : file_exists dest s = true)
    (hd : s.fs.unlink_denied dest = false) :
    rename_file orig dest s =
      Outcome.returned ((sys_rename orig dest (s.afterUnlink dest)).1 == 0)
        (sys_rename orig dest (s.afterUnlink dest)).2 := by
  have h1 : file_exists orig (s.afterUnlink dest) = true := by
    rw [file_exists_afterUnlink _ _ _ hne, h_src]
  simp [rename_file, h_dst, delete_file_eq dest s h_dst hd, h1]

theorem sys_rename_ok (orig dest : String) (s : Sys) (n : Node) (hn : s.fs.node orig = some n)
    (h : s.fs.rename_denied orig dest = false) :
    (sys_rename orig dest s).1 = 0 ∧
    (sys_rename orig dest s).2.fs.node dest = some n ∧
    (orig ≠ dest → (sys_rename orig dest s).2.fs.node orig = none) ∧
    (sys_rename orig dest s).2.cerr = s.cerr := by
  simp only [sys_rename, hn, h]
  refine ⟨by simp, by simp, ?_, by simp⟩
  intro hne
  simp [FS.set_node_other _ _ _ _ hne]

theorem sys_rename_refused (orig dest : String) (s : Sys)
    (h : s.fs.rename_denied orig dest = true) :
    (sys_rename orig dest s).1 = -1 ∧
    (sys_rename orig dest s).2.fs = s.fs ∧
    (sys_rename orig dest s).2.cerr = s.cerr := by
  simp [sys_rename, h]

/-- What `rename_file` does when the source exists and an existing destination
can be deleted: it returns whether the `rename` call succeeded; on success the
destination holds the source file and the source name is gone, on failure the
source is still in place. Nothing is written to `cerr`. -/
theorem rename_file_with_source (orig dest : String) (s : Sys) (hne : orig ≠ dest)
    (h_src : file_exists orig s = true)
    (h_del : file_exists dest s = true → s.fs.unlink_denied dest = false) :
    ∃ s1, rename_file orig dest s = Outcome.returned (!s.fs.rename_denied orig dest) s1 ∧
      s1.cerr = s.cerr ∧
      (s.fs.rename_denied orig dest = false →
        s1.fs.node dest = s.fs.node orig ∧ s1.fs.node orig = none) ∧
      (s.fs.rename_denied orig dest = true →
        s1.fs.node orig = s.fs.node orig ∧
        s1.fs.node dest = if file_exists dest s then none else s.fs.node dest) := by
  obtain ⟨c, hc⟩ := (file_exists_iff orig s).1 h_src
  cases h_dst : file_exists dest s with
  | false =>
    refine ⟨(sys_rename orig dest s).2, ?_, ?_, ?_, ?_⟩
    · rw [rename_file_no_dest orig dest s h_src h_dst]
      cases h_ren : s.fs.rename_denied orig dest with
      | false => simp [(sys_rename_ok orig dest s _ hc h_ren).1]
      | true => simp [(sys_rename_refused orig dest s h_ren).1]
    · cases h_ren : s.fs.rename_denied orig dest with
      | false => exact (sys_rename_ok orig dest s _ hc h_ren).2.2.2
      | true => exact (sys_rename_refused orig dest s h_ren).2.2
    · intro h_ren
      obtain ⟨-, h2, h3, -⟩ := sys_rename_ok orig dest s _ hc h_ren
      exact ⟨by rw [h2, hc], h3 hne⟩
    · intro h_ren
      obtain ⟨-, h2, -⟩ := sys_rename_refused orig dest s h_ren
      simp [h2]
  | true =>
    have hd := h_del h_dst
    have hc1 : (s.afterUnlink dest).fs.node orig = some ⟨c, true⟩ := by
      simp [Sys.afterUnlink, FS.set_node_other _ _ _ _ hne, hc]
    have hden : (s.afterUnlink dest).fs.rename_denied orig dest = s.fs.rename_denied orig dest :=
      rfl
    refine ⟨(sys_rename orig dest (s.afterUnlink dest)).2, ?_, ?_, ?_, ?_⟩
    · rw [rename_file_dest orig dest s hne h_src h_dst hd]
      cases h_ren : s.fs.rename_denied orig dest with
      | false => simp [(sys_rename_ok orig dest _ _ hc1 (hden.trans h_ren)).1]
      | true => simp [(sys_rename_refused orig dest _ (hden.trans h_ren)).1]
    · cases h_ren : s.fs.rename_denied orig dest with
      | false => exact (sys_rename_ok orig dest _ _ hc1 (hden.trans h_ren)).2.2.2
      | true => exact (sys_rename_refused orig dest _ (hden.trans h_ren)).2.2
    · intro h_ren
      obtain ⟨-, h2, h3, -⟩ := sys_rename_ok orig dest _ _ hc1 (hden.trans h_ren)
      exact ⟨by rw [h2, hc], h3 hne⟩
    · intro h_ren
      obtain ⟨-, h2, -⟩ := sys_rename_refused orig dest _ (hden.trans h_ren)
      rw [h2, hc1, hc]
      simp [Sys.afterUnlink]

/-! ## Construction -/

theorem file_exists_afterUnlink_same (path : String) (s : Sys) :
    file_exists path (s.afterUnlink path) = false := by
  simp [file_exists, sys_access, Sys.afterUnlink]

theorem delete_previous_cases (path : String) (s : Sys) :
    delete_previous path s =
      if file_exists path s then
        if s.fs.unlink_denied path then Outcome.aborted (s.afterRefusedUnlink path)
        else Outcome.returned () (s.afterUnlink path)
      else Outcome.returned () s := by
  cases hx : file_exists path s with
  | false => simp [delete_previous, hx]
  | true =>
    cases hd : s.fs.unlink_denied path with
    | false => simp [delete_previous, hx, delete_file_eq path s hx hd]
    | true =>
      simp [delete_previous, hx, delete_file_refused path s hd]
      rfl

theorem ctor_paranoid_cases (p : String) (outs : List Attempt) (s : Sys) :
    DataFile.ctor p Flags.SDF_PARANOID outs s =
      if file_exists (p ++ ".tmp") s then
        if s.fs.unlink_denied (p ++ ".tmp") then
          Outcome.aborted (s.afterRefusedUnlink (p ++ ".tmp"))
        else Outcome.returned (paranoid_session p) (s.afterUnlink (p ++ ".tmp"))
      else Outcome.returned (paranoid_session p) s := by
  simp only [DataFile.ctor, delete_previous_cases, Outcome.andThen, paranoid_session]
  cases hx : file_exists (p ++ ".tmp") s <;> cases hd : s.fs.unlink_denied (p ++ ".tmp") <;>
    simp [hx, hd]

theorem ctor_overwrite_cases (p : String) (outs : List Attempt) (s : Sys) :
    DataFile.ctor p Flags.SDF_OVERWRITE outs s =
      if file_exists p s then
        if s.fs.unlink_denied p then Outcome.aborted (s.afterRefusedUnlink p)
        else Outcome.returned
          { _flags := Flags.SDF_OVERWRITE, _actual_filename := p, _filename := p,
            _lock_filename := p ++ ".lck", _lock := 0, _open := true } (s.afterUnlink p)
      else Outcome.returned
          { _flags := Flags.SDF_OVERWRITE, _actual_filename := p, _filename := p,
            _lock_filename := p ++ ".lck", _lock := 0, _open := true } s := by
  simp only [DataFile.ctor, delete_previous_cases, Outcome.andThen]
  cases hx : file_exists p s <;> cases hd : s.fs.unlink_denied p <;> simp [hx, hd]

theorem ctor_paranoid_returned (p : String) (outs : List Attempt) (s s1 : Sys) (d : DataFile)
    (h : DataFile.ctor p Flags.SDF_PARANOID outs s = Outcome.returned d s1) :
    d = paranoid_session p := by
  rw [ctor_paranoid_cases] at h
  cases hx : file_exists (p ++ ".tmp") s <;> cases hd : s.fs.unlink_denied (p ++ ".tmp") <;>
    simp [hx, hd] at h <;> exact h.1.symm

/-! ## Closing -/

theorem close_not_open (is_locked : DataFile → Bool) (d : DataFile) (s : Sys)
    (h : d._open = false) : d.close is_locked s = Outcome.returned d s := by
  simp [DataFile.close, DataFile.is_open, h]

theorem andThen_returned {α β : Type} (o : Outcome α) (k : α → Sys → Outcome β) (b : β)
    (s : Sys) (h : o.andThen k = Outcome.returned b s) :
    ∃ a s0, o = Outcome.returned a s0 ∧ k a s0 = Outcome.returned b s := by
  cases o with
  | returned a s0 => exact ⟨a, s0, rfl, h⟩
  | aborted s0 => simp [Outcome.andThen] at h
  | blocked s0 => simp [Outcome.andThen] at h

theorem close_returned_closed (is_locked : DataFile → Bool) (d d1 : DataFile) (s s1 : Sys)
    (h : d.close is_locked s = Outcome.returned d1 s1) : d1._open = false := by
  cases ho : d._open with
  | false =>
    rw [close_not_open is_locked d s ho] at h
    simp at h
    rw [← h.1]
    exact ho
  | true =>
    simp only [DataFile.close, DataFile.is_open, ho, if_true] at h
    cases hf : d._flags with
    | SDF_SHARED =>
      simp only [hf] at h
      split at h <;> simp at h <;> rw [← h.1]
    | SDF_PARANOID =>
      simp only [hf] at h
      split at h
      · obtain ⟨a, s0, -, h2⟩ := andThen_returned _ _ _ _ h
        simp at h2
        rw [← h2.1]
      · simp at h
        rw [← h.1]
    | SDF_OVERWRITE =>
      simp [hf] at h
      rw [← h.1]
    | unrecognized code =>
      simp [hf] at h
      rw [← h.1]

/-- C3: once `close()` has returned, the session is closed, and a further
`close()` or the destructor returns at once with the very same session and
the very same machine state, whatever that state is: no call is made (no lock
release, no `unlink`, no `rename`), nothing is reported and the process is not
aborted. Holds for every mode and every reading of `is_locked()`. -/
theorem close_idempotent (is_locked : DataFile → Bool) (d d1 : DataFile) (s s1 : Sys)
    (h : d.close is_locked s = Outcome.returned d1 s1) :
    d1._open = false ∧
    d1.close is_locked s1 = Outcome.returned d1 s1 ∧
    d1.dtor is_locked s1 = Outcome.returned d1 s1 ∧
    ∀ s2 : Sys, d1.close is_locked s2 = Outcome.returned d1 s2 ∧
      d1.dtor is_locked s2 = Outcome.returned d1 s2 := by
  have hc := close_returned_closed is_locked d d1 s s1 h
  exact ⟨hc, close_not_open is_locked d1 s1 hc, close_not_open is_locked d1 s1 hc,
    fun s2 => ⟨close_not_open is_locked d1 s2 hc, close_not_open is_locked d1 s2 hc⟩⟩

/-- C1: a session opened by the paranoid constructor on `p` is closed on a
machine where `p ++ ".tmp"` is a readable and writable file with content `B`
and where `unlink` of `p` and `rename` of `p ++ ".tmp"` onto `p` are not
refused (whatever is or is not at `p`). Then `close()` returns with the
session closed, `p` holds exactly `B`, and no file is at `p ++ ".tmp"`. -/
theorem paranoid_close_commits (is_locked : DataFile → Bool) (p B : String)
    (outs : List Attempt) (s0 s1 : Sys) (d : DataFile)
    (h_open : DataFile.ctor p Flags.SDF_PARANOID outs s0 = Outcome.returned d s1)
    (s : Sys) (h_tmp : s.fs.node (p ++ ".tmp") = some ⟨B, true⟩)
    (h_unlink : s.fs.unlink_denied p = false)
    (h_rename : s.fs.rename_denied (p ++ ".tmp") p = false) :
    ∃ d2 s2, d.close is_locked s = Outcome.returned d2 s2 ∧ d2._open = false ∧
      s2.fs.node p = some ⟨B, true⟩ ∧ s2.fs.node (p ++ ".tmp") = none := by
  have hd := ctor_paranoid_returned p outs s0 s1 d h_open
  subst hd
  have hx : file_exists (p ++ ".tmp") s = true := (file_exists_iff _ _).2 ⟨B, h_tmp⟩
  obtain ⟨s2, hr, -, hok, -⟩ :=
    rename_file_with_source (p ++ ".tmp") p s (tmp_ne p) hx (fun _ => h_unlink)
  obtain ⟨h1, h2⟩ := hok h_rename
  refine ⟨{ paranoid_session p with _open := false }, s2, ?_, rfl, ?_, h2⟩
  · simp only [paranoid_session] at hx hr
    simp [DataFile.close, DataFile.is_open, paranoid_session, hx, hr, Outcome.andThen]
  · rw [h1, h_tmp]

theorem close_idempotent_witness :
    (DataFile.mk Flags.SDF_SHARED "data" "data" "data.lck" 3 false)._open = false ∧
    (DataFile.mk Flags.SDF_SHARED "data" "data" "data.lck" 3 false).close lock_nonzero
        (giveup_lock 3 "data.lck" (Sys.empty.withFile "data.lck" "")) =
      Outcome.returned (DataFile.mk Flags.SDF_SHARED "data" "data" "data.lck" 3 false)
        (giveup_lock 3 "data.lck" (Sys.empty.withFile "data.lck" "")) ∧
    (DataFile.mk Flags.SDF_SHARED "data" "data" "data.lck" 3 false).dtor lock_nonzero
        (giveup_lock 3 "data.lck" (Sys.empty.withFile "data.lck" "")) =
      Outcome.returned (DataFile.mk Flags.SDF_SHARED "data" "data" "data.lck" 3 false)
        (giveup_lock 3 "data.lck" (Sys.empty.withFile "data.lck" "")) ∧
    ∀ s2 : Sys,
      (DataFile.mk Flags.SDF_SHARED "data" "data" "data.lck" 3 false).close lock_nonzero s2 =
        Outcome.returned (DataFile.mk Flags.SDF_SHARED "data" "data" "data.lck" 3 false) s2 ∧
      (DataFile.mk Flags.SDF_SHARED "data" "data" "data.lck" 3 false).dtor lock_nonzero s2 =
        Outcome.returned (DataFile.mk Flags.SDF_SHARED "data" "data" "data.lck" 3 false) s2 :=
  close_idempotent lock_nonzero (DataFile.mk Flags.SDF_SHARED "data" "data" "data.lck" 3 true)
    (DataFile.mk Flags.SDF_SHARED "data" "data" "data.lck" 3 false)
    (Sys.empty.withFile "data.lck" "")
    (giveup_lock 3 "data.lck" (Sys.empty.withFile "data.lck" "")) rfl

theorem paranoid_close_commits_witness :
    ∃ d2 s2, (paranoid_session "data").close lock_nonzero
        ((Sys.empty.withFile "data" "A").withFile ("data" ++ ".tmp") "B") =
          Outcome.returned d2 s2 ∧ d2._open = false ∧
      s2.fs.node "data" = some ⟨"B", true⟩ ∧ s2.fs.node ("data" ++ ".tmp") = none :=
  paranoid_close_commits lock_nonzero "data" "B" [] (Sys.empty.withFile "data" "A")
    (Sys.empty.withFile "data" "A") (paranoid_session "data") rfl
    ((Sys.empty.withFile "data" "A").withFile ("data" ++ ".tmp") "B") rfl rfl rfl

/-- C2: the paranoid constructor on `p` followed at once by `close()`. Either
the constructor aborts (a stale `p ++ ".tmp"` could not be deleted), or it
returns and `close()` returns too; in both cases what is at `p` (whether there
is a file, its content, its access rights) is what was there before the
constructor ran. A stale `p ++ ".tmp"` is covered: `s` is arbitrary. -/
theorem paranoid_open_close_keeps_logical_file (is_locked : DataFile → Bool) (p : String)
    (outs : List Attempt) (s : Sys) :
    (∃ s1, DataFile.ctor p Flags.SDF_PARANOID outs s = Outcome.aborted s1 ∧
        s1.fs.node p = s.fs.node p) ∨
    (∃ d s1 d2 s2, DataFile.ctor p Flags.SDF_PARANOID outs s = Outcome.returned d s1 ∧
        d.close is_locked s1 = Outcome.returned d2 s2 ∧ d2._open = false ∧
        s1.fs.node p = s.fs.node p ∧ s2.fs.node p = s.fs.node p) := by
  rw [ctor_paranoid_cases]
  cases hx : file_exists (p ++ ".tmp") s with
  | false =>
    refine Or.inr ⟨paranoid_session p, s, { paranoid_session p with _open := false }, s,
      by simp [hx], ?_, rfl, rfl, rfl⟩
    simp [DataFile.close, DataFile.is_open, paranoid_session, hx]
  | true =>
    cases hd : s.fs.unlink_denied (p ++ ".tmp") with
    | true => exact Or.inl ⟨s.afterRefusedUnlink (p ++ ".tmp"), by simp [hx, hd], rfl⟩
    | false =>
      have hx1 := file_exists_afterUnlink_same (p ++ ".tmp") s
      have hp : (s.afterUnlink (p ++ ".tmp")).fs.node p = s.fs.node p :=
        FS.set_node_other _ _ _ _ (ne_tmp p)
      refine Or.inr ⟨paranoid_session p, s.afterUnlink (p ++ ".tmp"),
        { paranoid_session p with _open := false }, s.afterUnlink (p ++ ".tmp"),
        by simp [hx, hd], ?_, rfl, hp, hp⟩
      simp [DataFile.close, DataFile.is_open, paranoid_session, hx1]

/-! ## Stale staging files -/

/-- C4, as stated, fails for Overwrite mode: with a stale `data.tmp` on disk the
Overwrite constructor on `data` returns an open session and `data.tmp` is
still there with its content. -/
theorem overwrite_ctor_leaves_stale_tmp :
    (DataFile.ctor "data" Flags.SDF_OVERWRITE [] (Sys.empty.withFile "data.tmp" "stale")).value?
      = some (DataFile.mk Flags.SDF_OVERWRITE "data" "data" "data.lck" 0 true) ∧
    (DataFile.ctor "data" Flags.SDF_OVERWRITE []
      (Sys.empty.withFile "data.tmp" "stale")).sys.fs.node "data.tmp" =
        some ⟨"stale", true⟩ := by
  decide

/-- C4 amended: when a stale `p ++ ".tmp"` exists (readable and writable, as
`file_exists` tests), the Paranoid constructor on `p` unlinks it: if the
`unlink` is not refused the constructor returns, that `unlink` is the one call
it made and no file is at `p ++ ".tmp"`; if it is refused the process is
aborted. The Overwrite constructor leaves `p ++ ".tmp"` as it was, however it
ends, and deletes the file at `p` itself: when `file_exists` sees a file at `p`
it is unlinked, the constructor returning with no file at `p` after that one
call when the `unlink` is not refused, and the process being aborted with the
files untouched when it is; when `file_exists` sees none the constructor
returns with the machine as it was. -/
theorem paranoid_ctor_deletes_stale_tmp (p : String) (outs : List Attempt) (s : Sys)
    (h : file_exists (p ++ ".tmp") s = true) :
    (s.fs.unlink_denied (p ++ ".tmp") = false →
      ∃ d s1, DataFile.ctor p Flags.SDF_PARANOID outs s = Outcome.returned d s1 ∧
        s1.fs.node (p ++ ".tmp") = none ∧
        s1.calls = s.calls ++ [Call.unlink (p ++ ".tmp") 0]) ∧
    (s.fs.unlink_denied (p ++ ".tmp") = true →
      ∃ s1, DataFile.ctor p Flags.SDF_PARANOID outs s = Outcome.aborted s1) ∧
    (DataFile.ctor p Flags.SDF_OVERWRITE outs s).sys.fs.node (p ++ ".tmp") =
      s.fs.node (p ++ ".tmp") ∧
    (file_exists p s = true → s.fs.unlink_denied p = false →
      ∃ d s1, DataFile.ctor p Flags.SDF_OVERWRITE outs s = Outcome.returned d s1 ∧
        s.fs.node p ≠ none ∧ s1.fs.node p = none ∧
        s1.calls = s.calls ++ [Call.unlink p 0]) ∧
    (file_exists p s = true → s.fs.unlink_denied p = true →
      ∃ s1, DataFile.ctor p Flags.SDF_OVERWRITE outs s = Outcome.aborted s1 ∧
        s1.fs.node = s.fs.node ∧ s1.calls = s.calls ++ [Call.unlink p (-1)]) ∧
    (file_exists p s = false →
      ∃ d, DataFile.ctor p Flags.SDF_OVERWRITE outs s = Outcome.returned d s) := by
  refine ⟨?_, ?_, ?_, ?_, ?_, ?_⟩
  · intro hd
    refine ⟨paranoid_session p, s.afterUnlink (p ++ ".tmp"), ?_, ?_, rfl⟩
    · simp [ctor_paranoid_cases, h, hd]
    · simp [Sys.afterUnlink]
  · intro hd
    exact ⟨s.afterRefusedUnlink (p ++ ".tmp"), by simp [ctor_paranoid_cases, h, hd]⟩
  · rw [ctor_overwrite_cases]
    cases hx : file_exists p s <;> cases hd : s.fs.unlink_denied p <;>
      simp [Outcome.sys, Sys.afterUnlink, Sys.afterRefusedUnlink,
        FS.set_node_other _ _ _ _ (tmp_ne p)]
  · intro hx hd
    obtain ⟨c, hc⟩ := (file_exists_iff p s).1 hx
    refine ⟨DataFile.mk Flags.SDF_OVERWRITE p p (p ++ ".lck") 0 true, s.afterUnlink p,
      by simp [ctor_overwrite_cases, hx, hd], by simp [hc], ?_, rfl⟩
    simp [Sys.afterUnlink]
  · intro hx hd
    exact ⟨s.afterRefusedUnlink p, by simp [ctor_overwrite_cases, hx, hd], rfl, rfl⟩
  · intro hx
    exact ⟨DataFile.mk Flags.SDF_OVERWRITE p p (p ++ ".lck") 0 true,
      by simp [ctor_overwrite_cases, hx]⟩

theorem paranoid_ctor_deletes_stale_tmp_witness :
    (false = false →
      ∃ d s1, DataFile.ctor "data" Flags.SDF_PARANOID []
          ((Sys.empty.withFile "data" "old").withFile ("data" ++ ".tmp") "stale") =
            Outcome.returned d s1 ∧
        s1.fs.node ("data" ++ ".tmp") = none ∧
        s1.calls = [] ++ [Call.unlink ("data" ++ ".tmp") 0]) ∧
    (false = true →
      ∃ s1, DataFile.ctor "data" Flags.SDF_PARANOID []
          ((Sys.empty.withFile "data" "old").withFile ("data" ++ ".tmp") "stale") =
            Outcome.aborted s1) ∧
    (DataFile.ctor "data" Flags.SDF_OVERWRITE []
        ((Sys.empty.withFile "data" "old").withFile ("data" ++ ".tmp")
          "stale")).sys.fs.node ("data" ++ ".tmp") = some ⟨"stale", true⟩ ∧
    (true = true → false = false →
      ∃ d s1, DataFile.ctor "data" Flags.SDF_OVERWRITE []
          ((Sys.empty.withFile "data" "old").withFile ("data" ++ ".tmp") "stale") =
            Outcome.returned d s1 ∧
        (some ⟨"old", true⟩ : Option Node) ≠ none ∧ s1.fs.node "data" = none ∧
        s1.calls = [] ++ [Call.unlink "data" 0]) ∧
    (true = true → false = true →
      ∃ s1, DataFile.ctor "data" Flags.SDF_OVERWRITE []
          ((Sys.empty.withFile "data" "old").withFile ("data" ++ ".tmp") "stale") =
            Outcome.aborted s1 ∧
        s1.fs.node = ((Sys.empty.withFile "data" "old").withFile ("data" ++ ".tmp")
          "stale").fs.node ∧
        s1.calls = [] ++ [Call.unlink "data" (-1)]) ∧
    (true = false →
      ∃ d, DataFile.ctor "data" Flags.SDF_OVERWRITE []
          ((Sys.empty.withFile "data" "old").withFile ("data" ++ ".tmp") "stale") =
            Outcome.returned d
              ((Sys.empty.withFile "data" "old").withFile ("data" ++ ".tmp") "stale")) :=
  paranoid_ctor_deletes_stale_tmp "data" []
    ((Sys.empty.withFile "data" "old").withFile ("data" ++ ".tmp") "stale") rfl

/-! ## Type tags -/

/-- C6: at the failing input `tag = 4` (one past the four-entry table)
`tag_to_name` writes nothing to `cerr` and reads `names[4]`, past the end of
the table. In general the diagnostic is written exactly when `tag > 4`, while
the tags 0 to 3 give the four names without a diagnostic. -/
theorem tag_to_name_four_not_diagnosed (d : DataFile) (s : Sys) :
    (d.tag_to_name 4 s).2.cerr = s.cerr ∧ (d.tag_to_name 4 s).1 = none ∧
    (∀ tag, (d.tag_to_name tag s).2.cerr ≠ s.cerr ↔ 4 < tag) ∧
    (d.tag_to_name 0 s).1 = some "RTensor" ∧ (d.tag_to_name 1 s).1 = some "CTensor" ∧
    (d.tag_to_name 2 s).1 = some "Real MPS" ∧ (d.tag_to_name 3 s).1 = some "Complex MPS" := by
  refine ⟨rfl, rfl, ?_, rfl, rfl, rfl, rfl⟩
  intro tag
  by_cases h : 4 < tag
  · simp [DataFile.tag_to_name, h, Sys.report]
  · simp [DataFile.tag_to_name, h]

/-! ## What an observer of the destination sees during `rename_file` -/

@[simp]
theorem sys_open_creat_fst (path : String) (fd : Int) (s : Sys) :
    (sys_open_creat path fd s).1 = fd := by
  unfold sys_open_creat
  split <;> rfl

theorem get_lock_returned (lockName : String) (wait : Bool) :
    ∀ (outs : List Attempt) (s : Sys) (fd : Int) (s1 : Sys),
      get_lock lockName wait outs s = Outcome.returned fd s1 →
      (fd = -1 → wait = false) ∧ (wait = true → 0 ≤ fd)
  | [], s, fd, s1, h => by simp [get_lock] at h
  | a :: rest, s, fd, s1, h => by
    simp only [get_lock, sys_open_creat_fst, sys_flock] at h
    split at h
    · rename_i hfd
      split at h
      · split at h
        · simp at h
          rw [← h.1]
          exact ⟨fun h0 => by omega, fun _ => hfd⟩
        · cases wait with
          | false =>
            simp at h
            exact ⟨fun _ => rfl, fun h0 => Bool.noConfusion h0⟩
          | true =>
            simp at h
            exact get_lock_returned lockName true rest _ fd s1 h
      · split at h
        · rename_i hc
          simp at h
          rw [← h.1]
          refine ⟨fun h0 => by omega, fun _ => hfd⟩
        · exact get_lock_returned lockName wait rest _ fd s1 h
    · rename_i hfd
      split at h
      · rename_i hc
        simp at h
        rw [← h.1]
        simp only [Bool.or_eq_true, decide_eq_true_eq, Bool.not_eq_true'] at hc
        rcases hc with hc | hc
        · omega
        · exact ⟨fun _ => hc, fun h0 => by rw [hc] at h0; exact Bool.noConfusion h0⟩
      · exact get_lock_returned lockName wait rest _ fd s1 h

theorem get_lock_not_supported (lockName : String) (wait : Bool) (a : Attempt)
    (rest : List Attempt) (s : Sys) (h_fd : 0 ≤ a.open_fd) (h_flock : a.flock_ret < 0)
    (h_errno : a.errno = ENOTSUP) :
    ∃ s1, get_lock lockName wait (a :: rest) s = Outcome.returned a.open_fd s1 ∧
      s1.cout = s.cout ++ ["Locking not supported. We assume you know what you are doing.\n"] ∧
      s1.calls = s.calls ++ [Call.umask 0, Call.openCreat lockName a.open_fd,
        Call.umask s.umask, Call.flock a.open_fd a.flock_ret] := by
  have hr : get_lock lockName wait (a :: rest) s = Outcome.returned a.open_fd
      ((sys_flock a.open_fd a.flock_ret
        (sys_umask s.umask (sys_open_creat lockName a.open_fd (sys_umask 0 s).2).2).2).2.print
        "Locking not supported. We assume you know what you are doing.\n") := by
    simp only [get_lock, sys_open_creat_fst, sys_flock, h_fd, h_flock, h_errno, if_true]
    rfl
  refine ⟨_, hr, ?_, ?_⟩
  · simp only [Sys.print, sys_umask, sys_open_creat, sys_flock]
    split <;> rfl
  · simp only [Sys.print, sys_umask, sys_open_creat, sys_flock]
    split <;> simp

/-- C8: for every lock path, every value of `wait`, every sequence of outcomes of
`open`/`flock` and every machine state: whenever `get_lock` returns -1, `wait`
is false; with `wait` true every value it returns is non-negative; and in a
round where `open` gives a valid descriptor and `flock` fails with `ENOTSUP`,
`get_lock` returns that descriptor in that round (after printing the notice,
without `close` or `sleep`), for either value of `wait`. Each round of the
loop is `get_lock` on the outcomes that remain, so the last part covers every
round. -/
theorem get_lock_unavailable_only_when_not_waiting (lockName : String) (wait : Bool) :
    (∀ (outs : List Attempt) (s : Sys) (fd : Int) (s1 : Sys),
      get_lock lockName wait outs s = Outcome.returned fd s1 →
      (fd = -1 → wait = false) ∧ (wait = true → 0 ≤ fd)) ∧
    (∀ (a : Attempt) (rest : List Attempt) (s : Sys),
      0 ≤ a.open_fd → a.flock_ret < 0 → a.errno = ENOTSUP →
      ∃ s1, get_lock lockName wait (a :: rest) s = Outcome.returned a.open_fd s1 ∧
        s1.cout = s.cout ++ ["Locking not supported. We assume you know what you are doing.\n"] ∧
        s1.calls = s.calls ++ [Call.umask 0, Call.openCreat lockName a.open_fd,
          Call.umask s.umask, Call.flock a.open_fd a.flock_ret]) :=
  ⟨get_lock_returned lockName wait, get_lock_not_supported lockName wait⟩

theorem get_lock_unavailable_only_when_not_waiting_witness :
    (((-1 : Int) = -1 → false = false) ∧ (false = true → (0 : Int) ≤ -1)) ∧
    (((3 : Int) = -1 → true = false) ∧ (true = true → (0 : Int) ≤ 3)) ∧
    ∃ s1, get_lock "data.lck" true [⟨5, -1, ENOTSUP⟩] Sys.empty = Outcome.returned 5 s1 ∧
      s1.cout = [] ++ ["Locking not supported. We assume you know what you are doing.\n"] ∧
      s1.calls = [] ++ [Call.umask 0, Call.openCreat "data.lck" 5, Call.umask 0o022,
        Call.flock 5 (-1)] :=
  ⟨(get_lock_unavailable_only_when_not_waiting "data.lck" false).1
      [⟨4, -1, 11⟩] Sys.empty (-1)
      (get_lock "data.lck" false [⟨4, -1, 11⟩] Sys.empty).sys (by rfl),
   (get_lock_unavailable_only_when_not_waiting "data.lck" true).1
      [⟨4, -1, 11⟩, ⟨3, 0, 0⟩] Sys.empty 3
      (get_lock "data.lck" true [⟨4, -1, 11⟩, ⟨3, 0, 0⟩] Sys.empty).sys (by rfl),
   (get_lock_unavailable_only_when_not_waiting "data.lck" true).2
      ⟨5, -1, ENOTSUP⟩ [] Sys.empty (by decide) (by decide) rfl⟩

/-- C9: at the failing input, `open` giving descriptor 0 with `wait` true and a
successful `flock`, `get_lock` does not return in that round: with no further
outcome it is still in the loop, and with a second round giving descriptor 3
it returns 3 after a `sleep(1)` and a second `open`, descriptor 0 never being
closed. In general such a round leads to `sleep(1)` and the next round. A
positive descriptor is returned in its round, and so is 0 when `wait` is
false. -/
theorem get_lock_descriptor_zero_retries :
    (get_lock "data.lck" true [⟨0, 0, 0⟩] Sys.empty).value? = none ∧
    (get_lock "data.lck" true [⟨0, 0, 0⟩, ⟨3, 0, 0⟩] Sys.empty).value? = some 3 ∧
    (get_lock "data.lck" true [⟨0, 0, 0⟩, ⟨3, 0, 0⟩] Sys.empty).sys.calls =
      [Call.umask 0, Call.openCreat "data.lck" 0, Call.umask 0o022, Call.flock 0 0,
       Call.sleep 1,
       Call.umask 0, Call.openCreat "data.lck" 3, Call.umask 0o022, Call.flock 3 0] ∧
    (∀ (lockName : String) (r e : Int) (rest : List Attempt) (s : Sys), 0 ≤ r →
      ∃ s1, get_lock lockName true (⟨0, r, e⟩ :: rest) s = get_lock lockName true rest s1 ∧
        s1.calls = s.calls ++ [Call.umask 0, Call.openCreat lockName 0, Call.umask s.umask,
          Call.flock 0 r, Call.sleep 1]) ∧
    (∀ (lockName : String) (wait : Bool) (fd r e : Int) (rest : List Attempt) (s : Sys),
      0 ≤ r → (0 < fd ∨ (fd = 0 ∧ wait = false)) →
      ∃ s1, get_lock lockName wait (⟨fd, r, e⟩ :: rest) s = Outcome.returned fd s1 ∧
        s1.calls = s.calls ++ [Call.umask 0, Call.openCreat lockName fd, Call.umask s.umask,
          Call.flock fd r]) := by
  refine ⟨by decide, by decide, by decide, ?_, ?_⟩
  · intro lockName r e rest s hr
    have hr1 : ¬ r < 0 := by omega
    refine ⟨sys_sleep 1 (sys_flock 0 r
      (sys_umask s.umask (sys_open_creat lockName 0 (sys_umask 0 s).2).2).2).2, ?_, ?_⟩
    · simp [get_lock, sys_flock, sys_umask, hr1]
    · simp only [sys_sleep, sys_umask, sys_open_creat, sys_flock]
      split <;> simp
  · intro lockName wait fd r e rest s hr hfd
    have hr1 : ¬ r < 0 := by omega
    have hfd0 : 0 ≤ fd := by omega
    refine ⟨(sys_flock fd r
      (sys_umask s.umask (sys_open_creat lockName fd (sys_umask 0 s).2).2).2).2, ?_, ?_⟩
    · rcases hfd with h | ⟨h1, h2⟩
      · simp [get_lock, sys_flock, sys_umask, hr1, hfd0, h]
      · subst h1 h2
        simp [get_lock, sys_flock, sys_umask, hr1]
    · simp only [sys_umask, sys_open_creat, sys_flock]
      split <;> simp

/-! ## Failures of the filesystem calls -/

/-- C7: at the failing input, a paranoid session on `data` closed on a machine
where `data` (content `old`) and `data.tmp` (content `new`) exist and `rename`
is refused, `close()` returns normally with the session closed, after the
calls `unlink("data")` and a failed `rename`; nothing is written to `cerr` or
`cout`, no file is at `data` and `data.tmp` is still in place. Likewise
`giveup_lock` with a refused `unlink` goes on to `close(fd)` and reports
nothing. In general, for every `p` and every machine where `p ++ ".tmp"`
exists, the `rename` onto `p` is refused and an existing `p` can be deleted,
`rename_file` returns `false` and `close()` on the paranoid session drops it:
`close()` returns with the session closed, nothing added to `cerr`, the
staging file in place, and no file at `p` if `file_exists` saw one. -/
theorem paranoid_close_swallows_rename_failure :
    (DataFile.ctor "data" Flags.SDF_PARANOID []
      (Sys.empty.withFile "data" "old").denyRename).value? = some (paranoid_session "data") ∧
    ((paranoid_session "data").close lock_nonzero
      ((Sys.empty.withFile "data" "old").withFile "data.tmp" "new").denyRename).value? =
        some (DataFile.mk Flags.SDF_PARANOID "data.tmp" "data" "data.lck" 0 false) ∧
    ((paranoid_session "data").close lock_nonzero
      ((Sys.empty.withFile "data" "old").withFile "data.tmp" "new").denyRename).sys.calls =
        [Call.unlink "data" 0, Call.rename "data.tmp" "data" (-1)] ∧
    ((paranoid_session "data").close lock_nonzero
      ((Sys.empty.withFile "data" "old").withFile "data.tmp" "new").denyRename).sys.cerr = [] ∧
    ((paranoid_session "data").close lock_nonzero
      ((Sys.empty.withFile "data" "old").withFile "data.tmp" "new").denyRename).sys.cout = [] ∧
    ((paranoid_session "data").close lock_nonzero
      ((Sys.empty.withFile "data" "old").withFile "data.tmp" "new").denyRename).sys.fs.node
        "data" = none ∧
    ((paranoid_session "data").close lock_nonzero
      ((Sys.empty.withFile "data" "old").withFile "data.tmp" "new").denyRename).sys.fs.node
        "data.tmp" = some ⟨"new", true⟩ ∧
    (giveup_lock 3 "data.lck" (Sys.empty.withFile "data.lck" "").denyUnlink).calls =
      [Call.unlink "data.lck" (-1), Call.closeFd 3] ∧
    (giveup_lock 3 "data.lck" (Sys.empty.withFile "data.lck" "").denyUnlink).cerr = [] ∧
    (∀ (is_locked : DataFile → Bool) (p : String) (s : Sys),
      file_exists (p ++ ".tmp") s = true → s.fs.rename_denied (p ++ ".tmp") p = true →
      (file_exists p s = true → s.fs.unlink_denied p = false) →
      ∃ s1, rename_file (p ++ ".tmp") p s = Outcome.returned false s1 ∧
        (paranoid_session p).close is_locked s =
          Outcome.returned { paranoid_session p with _open := false } s1 ∧
        s1.cerr = s.cerr ∧ s1.fs.node (p ++ ".tmp") = s.fs.node (p ++ ".tmp") ∧
        s1.fs.node p = if file_exists p s then none else s.fs.node p) := by
  refine ⟨by decide, by decide, by decide, by decide, by decide, by decide, by decide,
    by decide, by decide, ?_⟩
  intro is_locked p s h_tmp h_ren h_del
  obtain ⟨s1, hr, hcerr, -, hfail⟩ :=
    rename_file_with_source (p ++ ".tmp") p s (tmp_ne p) h_tmp h_del
  rw [h_ren] at hr
  refine ⟨s1, hr, ?_, hcerr, (hfail h_ren).1, (hfail h_ren).2⟩
  have hx : file_exists (paranoid_session p)._actual_filename s = true := h_tmp
  have hr1 : rename_file (paranoid_session p)._actual_filename (paranoid_session p)._filename s
      = Outcome.returned false s1 := hr
  simp only [paranoid_session] at hx hr1
  simp [DataFile.close, DataFile.is_open, paranoid_session, hx, hr1, Outcome.andThen]

end sdf
